import Mathlib

/-!
Verification of the monitoring state machine and alerting logic of the
Supabase health-check monitor (`supabase_monitor.py` / `app.py`).

The embedding models the pure decision logic of the monitor: HTTP status
classification (`check_supabase_health`), the per-tick alert decision and
consecutive-failure bookkeeping from `monitor_loop`, daily-report
scheduling (`should_send_daily_report`), daily statistics accumulation
(`update_daily_stats` / `reset_daily_stats`), and the uptime computation
of `send_daily_success_report`.  Network effects are modelled as explicit
inputs (a probe result, a delivery outcome); state mutation becomes
explicit state passing.
-/

/-- The coarse health verdict of a single check (the `status` string field
in the Python dict: `'healthy' | 'warning' | 'error' | 'unknown'`). -/
inductive Status
  | healthy
  | warning
  | error
  | unknown
deriving DecidableEq, Repr

/-- The `health_status` dict built by `check_supabase_health`:
status classification, optional latency in milliseconds, optional error
message, optional HTTP status code. -/
structure HealthStatus where
  status : Status
  response_time : Option ℚ
  error_message : Option String
  status_code : Option ℕ
deriving DecidableEq, Repr

/-- `CHECK_INTERVAL = 60` seconds, from the module constants. -/
def CHECK_INTERVAL : ℚ := 60

/-- `REQUEST_TIMEOUT = 10` seconds, from the module constants. -/
def REQUEST_TIMEOUT : ℕ := 10

/-- The status-code branch of `check_supabase_health` (lines 175-191 of
`supabase_monitor.py`): given the HTTP status code of a received response,
the classification and error message assigned by the if/elif chain. -/
def classifyStatusCode (code : ℕ) : Status × Option String :=
  if code = 200 then
    (Status.healthy, none)
  else if code ≥ 500 then
    (Status.error, some ("Internal server error: " ++ toString code))
  else if code = 401 then
    (Status.error, some "Authentication failed - check your API key")
  else if code = 403 then
    (Status.error, some "Access forbidden - check permissions")
  else if code ≥ 400 then
    (Status.warning, some ("Client error: " ++ toString code))
  else
    (Status.warning, some ("Unexpected status code: " ++ toString code))

/-- The outcome of the single `requests.get` performed by
`check_supabase_health`: either a response arrived (with its status code
and the measured latency in milliseconds), or one of the exception paths
of the `try` block was taken. -/
inductive ProbeResult
  | response (statusCode : ℕ) (latencyMillis : ℚ)
  | timeout
  | connectionError
  | requestException (detail : String)
  | otherException (detail : String)
deriving DecidableEq, Repr

/-- `SupabaseMonitor.check_supabase_health`: starts from the
`'unknown'` dict, and on every path (response received, or any of the
four `except` handlers) overwrites the status before returning. -/
def check_supabase_health (r : ProbeResult) : HealthStatus :=
  match r with
  | ProbeResult.response code latency =>
      { status := (classifyStatusCode code).1
        response_time := some latency
        error_message := (classifyStatusCode code).2
        status_code := some code }
  | ProbeResult.timeout =>
      { status := Status.error
        response_time := none
        error_message := some ("Request timeout after " ++ toString REQUEST_TIMEOUT ++ " seconds")
        status_code := none }
  | ProbeResult.connectionError =>
      { status := Status.error
        response_time := none
        error_message := some "Connection error - unable to reach Supabase"
        status_code := none }
  | ProbeResult.requestException d =>
      { status := Status.error
        response_time := none
        error_message := some ("Request error: " ++ d)
        status_code := none }
  | ProbeResult.otherException d =>
      { status := Status.error
        response_time := none
        error_message := some ("Unexpected error: " ++ d)
        status_code := none }

/-- The `daily_stats` dict of `SupabaseMonitor`. -/
structure DailyStats where
  checks_today : ℕ
  errors_today : ℕ
  warnings_today : ℕ
  total_downtime_minutes : ℚ
  average_response_time : ℚ
  response_times : List ℚ
deriving DecidableEq, Repr

/-- The zero state of `daily_stats`, as built in `__init__` and in
`reset_daily_stats`. -/
def initDailyStats : DailyStats :=
  { checks_today := 0
    errors_today := 0
    warnings_today := 0
    total_downtime_minutes := 0
    average_response_time := 0
    response_times := [] }

/-- `SupabaseMonitor.reset_daily_stats`: replaces `daily_stats` with the
zero state. -/
def reset_daily_stats (_s : DailyStats) : DailyStats :=
  initDailyStats

/-- `SupabaseMonitor.update_daily_stats`: increments `checks_today`; on
`'error'` increments `errors_today` and adds `CHECK_INTERVAL / 60` to
`total_downtime_minutes`; on `'warning'` increments `warnings_today`;
then, when `health_status.get('response_time')` is truthy (a present,
nonzero latency — Python treats `None` and `0.0` as falsy), appends it to
`response_times` and recomputes `average_response_time` as
`sum / len` of the list. -/
def update_daily_stats (s : DailyStats) (h : HealthStatus) : DailyStats :=
  let s1 : DailyStats := { s with checks_today := s.checks_today + 1 }
  let s2 : DailyStats :=
    if h.status = Status.error then
      { s1 with
          errors_today := s1.errors_today + 1
          total_downtime_minutes := s1.total_downtime_minutes + CHECK_INTERVAL / 60 }
    else if h.status = Status.warning then
      { s1 with warnings_today := s1.warnings_today + 1 }
    else s1
  match h.response_time with
  | some t =>
      if t = 0 then s2
      else
        let rts := s2.response_times ++ [t]
        { s2 with
            response_times := rts
            average_response_time := rts.sum / (rts.length : ℚ) }
  | none => s2

/-- A wall-clock instant, split as `datetime.now()` is used by
`should_send_daily_report`: `date` is a calendar-day index and
`timeMinutes` the time of day in minutes since midnight. -/
structure WallClock where
  date : ℕ
  timeMinutes : ℕ
deriving DecidableEq, Repr

/-- `DAILY_REPORT_TIME = dt_time(9, 0)`, i.e. 09:00, as minutes since
midnight. -/
def DAILY_REPORT_TIME : ℕ := 9 * 60

/-- `SupabaseMonitor.should_send_daily_report`: true iff the stored
`last_daily_report_date` (possibly `None`) differs from today's date and
the current time of day is at or after `DAILY_REPORT_TIME`. -/
def should_send_daily_report (last_daily_report_date : Option ℕ) (now : WallClock) : Bool :=
  if last_daily_report_date ≠ some now.date ∧ now.timeMinutes ≥ DAILY_REPORT_TIME then
    true
  else
    false

/-- The uptime computation of `send_daily_success_report`:
`100 - (errors_today / max(checks_today, 1) * 100)`. -/
def uptime_percentage (checks_today errors_today : ℕ) : ℚ :=
  100 - ((errors_today : ℚ) / ((max checks_today 1 : ℕ) : ℚ) * 100)

/-- The outcome of a Telegram delivery attempt inside
`send_telegram_alert`: success, or one of the two caught exception
classes. -/
inductive DeliveryOutcome
  | delivered
  | requestException (detail : String)
  | otherException (detail : String)
deriving DecidableEq, Repr

/-- `SupabaseMonitor.send_telegram_alert`: every delivery failure is
caught inside the function and only logged, so the caller always resumes
normally; the returned value is the log line produced. -/
def send_telegram_alert (outcome : DeliveryOutcome) (severity : String) : String :=
  match outcome with
  | DeliveryOutcome.delivered => "Telegram alert sent successfully: " ++ severity
  | DeliveryOutcome.requestException e => "Failed to send Telegram alert: " ++ e
  | DeliveryOutcome.otherException e => "Unexpected error sending Telegram alert: " ++ e

/-- The part of `SupabaseMonitor`'s state touched by
`send_daily_success_report`: the last daily-report date and the daily
statistics. -/
structure ReportState where
  last_daily_report_date : Option ℕ
  daily_stats : DailyStats
deriving DecidableEq, Repr

/-- `SupabaseMonitor.send_daily_success_report`: composes the report,
calls `send_telegram_alert` (which never raises, whatever the delivery
outcome), then sets `last_daily_report_date` to today's date and resets
the daily statistics.  `today` is `datetime.now().date()` at the call;
`delivery` is the delivery outcome of the notification. -/
def send_daily_success_report (s : ReportState) (today : ℕ)
    (delivery : DeliveryOutcome) : ReportState × String :=
  let log := send_telegram_alert delivery "DAILY_SUCCESS"
  ({ last_daily_report_date := some today
     daily_stats := reset_daily_stats s.daily_stats }, log)

/-- The alert-decision state of `monitor_loop`: the previous tick's
classification (`last_status`, `None` before the first tick) and the
consecutive-failure counter. -/
structure MonitorState where
  last_status : Option Status
  consecutive_failures : ℕ
deriving DecidableEq, Repr

/-- Alert severities passed to `send_telegram_alert` by the alert logic
of `monitor_loop`. -/
inductive Severity
  | error
  | warning
  | info
deriving DecidableEq, Repr

/-- The alert logic of one `monitor_loop` tick (lines 265-306 of
`supabase_monitor.py`): given the state and the current classification,
the updated state (with `last_status` set to the current classification
at the end) and the list of alerts sent this tick.  On `'error'` the
failure counter is incremented and an ERROR alert is sent iff the new
count is 1 or divisible by 5; on `'warning'` a WARNING alert is always
sent and the counter resets; otherwise (healthy or unknown) the counter
resets and an INFO recovery alert is sent iff the previous status was
`'error'` or `'warning'` and the current one is `'healthy'`. -/
def alertTick (st : MonitorState) (current : Status) : MonitorState × List Severity :=
  if current = Status.error then
    let cf := st.consecutive_failures + 1
    let alerts := if cf = 1 ∨ cf % 5 = 0 then [Severity.error] else []
    ({ last_status := some current, consecutive_failures := cf }, alerts)
  else if current = Status.warning then
    ({ last_status := some current, consecutive_failures := 0 }, [Severity.warning])
  else
    let alerts :=
      if (st.last_status = some Status.error ∨ st.last_status = some Status.warning)
          ∧ current = Status.healthy then
        [Severity.info]
      else []
    ({ last_status := some current, consecutive_failures := 0 }, alerts)

/-- The classification table as worded in the specification (section 4.1):
200 is Healthy; any code at or above 500 is Error; 401 and 403 are Error;
any other code in [400, 500) is Warning with a client-error message; any
remaining code is Warning with an unexpected-status message.  Stated
independently of the code's if/elif chain, for comparison with
`classifyStatusCode`. -/
def specClassifyTable (code : ℕ) : Status × Option String :=
  if code = 200 then
    (Status.healthy, none)
  else if 500 ≤ code then
    (Status.error, some ("Internal server error: " ++ toString code))
  else if code = 401 then
    (Status.error, some "Authentication failed - check your API key")
  else if code = 403 then
    (Status.error, some "Access forbidden - check permissions")
  else if 400 ≤ code ∧ code < 500 ∧ code ≠ 401 ∧ code ≠ 403 then
    (Status.warning, some ("Client error: " ++ toString code))
  else
    (Status.warning, some ("Unexpected status code: " ++ toString code))

/-- The invariant of claim C7: `average_response_time` is the arithmetic
mean of `response_times` when that list is non-empty, and 0 when it is
empty. -/
def statsInvariant (s : DailyStats) : Prop :=
  (s.response_times = [] → s.average_response_time = 0) ∧
  (s.response_times ≠ [] →
    s.average_response_time = s.response_times.sum / (s.response_times.length : ℚ))

instance (s : DailyStats) : Decidable (statsInvariant s) := by
  unfold statsInvariant
  infer_instance

/-- A healthy outcome carrying latency `t`, used for concrete statistics
scenarios. -/
def latencyOutcome (t : ℚ) : HealthStatus :=
  { status := Status.healthy
    response_time := some t
    error_message := none
    status_code := none }

/-- A healthy outcome whose measured latency is exactly 0 ms: present but
falsy under Python truthiness, so `update_daily_stats` does not append
it. -/
def zeroLatencyOutcome : HealthStatus :=
  { status := Status.healthy
    response_time := some 0
    error_message := none
    status_code := none }

/-- A concrete error outcome (HTTP 503 with a 50 ms latency) used to
instantiate the statistics theorems. -/
def errorOutcomeExample : HealthStatus :=
  { status := Status.error
    response_time := some 50
    error_message := some "Internal server error: 503"
    status_code := some 503 }

/-- Claim C1: on every tick classified Error, `consecutive_failures` is
incremented by 1, and an ERROR alert is emitted if and only if the new
counter value is 1 or a multiple of 5; for all other values (2, 3, 4, 6,
...) no alert at all is emitted on that tick. -/
theorem C1_error_tick_alert (st : MonitorState) :
    (alertTick st Status.error).1.consecutive_failures = st.consecutive_failures + 1 ∧
    ((alertTick st Status.error).2 = [Severity.error] ↔
      st.consecutive_failures + 1 = 1 ∨ (st.consecutive_failures + 1) % 5 = 0) ∧
    ((alertTick st Status.error).2 = [] ↔
      ¬(st.consecutive_failures + 1 = 1 ∨ (st.consecutive_failures + 1) % 5 = 0)) := by
  refine ⟨rfl, ?_, ?_⟩ <;> simp only [alertTick, if_pos rfl] <;> split_ifs with h <;> simp_all

/-- Claim C2: the primary-check classification is a pure function of the
HTTP status code matching the specification's table — 200 is Healthy, any
code at or above 500 is Error, 401 and 403 are Error, any other code in
[400, 500) is Warning with a client-error message, and every remaining
code is Warning with an unexpected-status message — with the documented
example mappings. -/
theorem C2_classification_matches_spec (code : ℕ) :
    classifyStatusCode code = specClassifyTable code ∧
    classifyStatusCode 200 = (Status.healthy, none) ∧
    classifyStatusCode 503 = (Status.error, some "Internal server error: 503") ∧
    classifyStatusCode 404 = (Status.warning, some "Client error: 404") ∧
    classifyStatusCode 401 = (Status.error, some "Authentication failed - check your API key") := by
  refine ⟨?_, rfl, rfl, rfl, rfl⟩
  unfold classifyStatusCode specClassifyTable
  split_ifs <;> first | rfl | (exfalso; omega)

/-- Claim C3: for every prior state, after any tick whose classification
is not Error (Warning, Healthy or Unknown), `consecutive_failures` is
0. -/
theorem C3_nonerror_resets_failures (st : MonitorState) (c : Status)
    (h : c ≠ Status.error) :
    (alertTick st c).1.consecutive_failures = 0 := by
  unfold alertTick
  split_ifs <;> simp_all

/-- Witness for C3: a Healthy tick after 7 consecutive failures resets
the counter to 0. -/
theorem C3_nonerror_resets_failures_witness :
    (alertTick ⟨some Status.error, 7⟩ Status.healthy).1.consecutive_failures = 0 :=
  C3_nonerror_resets_failures ⟨some Status.error, 7⟩ Status.healthy (by decide)

/-- Claim C4: an INFO recovery alert is emitted on a tick if and only if
the previous classification was Error or Warning and the current one is
Healthy (in particular never on a Healthy-to-Healthy transition), and the
stored previous classification is updated to the current one at the end
of every tick. -/
theorem C4_recovery_alert (st : MonitorState) (c : Status) :
    ((alertTick st c).2 = [Severity.info] ↔
      (st.last_status = some Status.error ∨ st.last_status = some Status.warning) ∧
        c = Status.healthy) ∧
    (alertTick st c).1.last_status = some c := by
  cases c <;> simp [alertTick] <;> (try split_ifs) <;> (try simp_all) <;> tauto

/-- Claim C5: for every current instant and every optional last-report
date, the daily report is due if and only if the last-report date differs
from today's date and the time of day is at or after 09:00; it is never
due when the last-report date is today, and never due before 09:00. -/
theorem C5_report_due (lastDate : Option ℕ) (now : WallClock) :
    (should_send_daily_report lastDate now = true ↔
      lastDate ≠ some now.date ∧ DAILY_REPORT_TIME ≤ now.timeMinutes) ∧
    (lastDate = some now.date → should_send_daily_report lastDate now = false) ∧
    (now.timeMinutes < DAILY_REPORT_TIME → should_send_daily_report lastDate now = false) := by
  unfold should_send_daily_report
  split_ifs with h <;> simp_all

/-- Witness for C5: with no report sent yet, at exactly 09:00 on day 3
the report is due. -/
theorem C5_report_due_witness :
    should_send_daily_report none ⟨3, 540⟩ = true :=
  (C5_report_due none ⟨3, 540⟩).1.mpr (by decide)

/-- Claim C6 (amended): recording an outcome increments `checks_today`;
an Error outcome additionally increments `errors_today` and adds
`CHECK_INTERVAL / 60` minutes of downtime; a Warning outcome increments
`warnings_today`; and whenever a latency value is present **and nonzero**
it is appended to `response_times` and the average is recomputed as the
arithmetic mean of all samples.  (A present latency equal to 0 is falsy
in Python and is not appended — see the counterexample.) -/
theorem C6_record_stats (s : DailyStats) (h : HealthStatus) :
    (update_daily_stats s h).checks_today = s.checks_today + 1 ∧
    (h.status = Status.error →
      (update_daily_stats s h).errors_today = s.errors_today + 1 ∧
      (update_daily_stats s h).total_downtime_minutes =
        s.total_downtime_minutes + CHECK_INTERVAL / 60) ∧
    (h.status = Status.warning →
      (update_daily_stats s h).warnings_today = s.warnings_today + 1) ∧
    (∀ t : ℚ, h.response_time = some t → t ≠ 0 →
      (update_daily_stats s h).response_times = s.response_times ++ [t] ∧
      (update_daily_stats s h).average_response_time =
        (s.response_times ++ [t]).sum / ((s.response_times ++ [t]).length : ℚ)) := by
  rcases h with ⟨hs, hrt, hem, hsc⟩
  cases hs <;> rcases hrt with _ | t <;>
    simp [update_daily_stats] <;> split_ifs <;> simp_all

/-- Witness for C6: recording a concrete error outcome increments the
error counter and adds one minute of downtime. -/
theorem C6_record_stats_witness :
    errorOutcomeExample.status = Status.error ∧
    (update_daily_stats initDailyStats errorOutcomeExample).errors_today =
      initDailyStats.errors_today + 1 ∧
    (update_daily_stats initDailyStats errorOutcomeExample).total_downtime_minutes =
      initDailyStats.total_downtime_minutes + CHECK_INTERVAL / 60 :=
  ⟨rfl, (C6_record_stats initDailyStats errorOutcomeExample).2.1 rfl⟩

/-- Counterexample to C6 as stated: an outcome whose latency is present
but equal to 0 is not appended to `response_times` (Python's
`if health_status.get('response_time'):` treats 0.0 as falsy), so the
sample list stays empty instead of becoming `[0]`. -/
theorem C6_counterexample :
    zeroLatencyOutcome.response_time = some 0 ∧
    (update_daily_stats initDailyStats zeroLatencyOutcome).response_times ≠
      initDailyStats.response_times ++ [0] := by
  refine ⟨rfl, ?_⟩
  simp [update_daily_stats, initDailyStats, zeroLatencyOutcome]

/-- Claim C7: the invariant "`average_response_time` is the arithmetic
mean of `response_times` when non-empty, else 0" is preserved by
`update_daily_stats`, holds after `reset_daily_stats`, and for samples
100, 200, 300 the average is 200. -/
theorem C7_average_invariant :
    (∀ s h, statsInvariant s → statsInvariant (update_daily_stats s h)) ∧
    (∀ s, statsInvariant (reset_daily_stats s)) ∧
    (update_daily_stats (update_daily_stats (update_daily_stats initDailyStats
        (latencyOutcome 100)) (latencyOutcome 200)) (latencyOutcome 300)).average_response_time
      = 200 := by
  refine ⟨?_, ?_, ?_⟩
  · intro s h hinv
    rcases h with ⟨hs, hrt, hem, hsc⟩
    rcases hrt with _ | t <;>
      simp only [statsInvariant, update_daily_stats] at hinv ⊢ <;>
      split_ifs <;> simp_all
  · intro s
    constructor <;> simp [reset_daily_stats, initDailyStats]
  · simp [update_daily_stats, initDailyStats, latencyOutcome]
    norm_num

/-- Witness for C7: starting from the zero statistics (which satisfy the
invariant), recording a 100 ms healthy outcome preserves the
invariant. -/
theorem C7_average_invariant_witness :
    statsInvariant (update_daily_stats initDailyStats (latencyOutcome 100)) :=
  C7_average_invariant.1 initDailyStats (latencyOutcome 100)
    (by constructor <;> simp [initDailyStats])

/-- Claim C8: for all counter values the uptime percentage is
`100 - errors / max(checks, 1) * 100`; with zero checks the denominator
is 1 (no division by zero), and 100 checks with 5 errors give 95%. -/
theorem C8_uptime (c e : ℕ) :
    uptime_percentage c e = 100 - (e : ℚ) / ((max c 1 : ℕ) : ℚ) * 100 ∧
    uptime_percentage 0 e = 100 - (e : ℚ) * 100 ∧
    uptime_percentage 100 5 = 95 := by
  refine ⟨rfl, ?_, by norm_num [uptime_percentage]⟩
  simp [uptime_percentage]

/-- Claim C9: whatever the delivery outcome of the notification,
immediately after `send_daily_success_report` the last daily-report date
is today and every daily-statistics field is back to its zero state. -/
theorem C9_report_resets (s : ReportState) (today : ℕ) (delivery : DeliveryOutcome) :
    (send_daily_success_report s today delivery).1.last_daily_report_date = some today ∧
    (send_daily_success_report s today delivery).1.daily_stats.checks_today = 0 ∧
    (send_daily_success_report s today delivery).1.daily_stats.errors_today = 0 ∧
    (send_daily_success_report s today delivery).1.daily_stats.warnings_today = 0 ∧
    (send_daily_success_report s today delivery).1.daily_stats.total_downtime_minutes = 0 ∧
    (send_daily_success_report s today delivery).1.daily_stats.average_response_time = 0 ∧
    (send_daily_success_report s today delivery).1.daily_stats.response_times = [] :=
  ⟨rfl, rfl, rfl, rfl, rfl, rfl, rfl⟩

/-- Claim C10: on every execution path of `check_supabase_health` — any
received status code and any of the four exception handlers, including
the catch-all — the returned classification is Healthy, Warning or Error;
the initial Unknown value is always overwritten before return. -/
theorem C10_unknown_unreachable (r : ProbeResult) :
    (check_supabase_health r).status ≠ Status.unknown ∧
    ((check_supabase_health r).status = Status.healthy ∨
     (check_supabase_health r).status = Status.warning ∨
     (check_supabase_health r).status = Status.error) := by
  cases r <;> simp [check_supabase_health, classifyStatusCode] <;> split_ifs <;> simp
